import Mathlib

/-!
Shallow embedding of the particle system of the Christmas-Tree-Touch
repository (component `Scene`, file `src/unnamed/part_000`).

The source is a TypeScript/Three.js scene.  Floating-point scalars are
modelled as real numbers; `Math.random()` draws are modelled as explicit
real-valued parameters (the source uses an unseeded uniform source, so a
draw is just an arbitrary value, with range facts `0 ≤ u` / `u ≤ 1`
supplied as hypotheses where a claim needs them).  Mutation of a mesh /
particle is modelled by state-passing: `Particle.update` returns the new
particle state.
-/

noncomputable section

namespace ChristmasTree

/-- A 3-component vector, the embedding of `THREE.Vector3`. -/
structure Vec3 where
  x : ℝ
  y : ℝ
  z : ℝ


/-- Componentwise sum, used for the per-frame rotation increment
(`rotation.x += rotationSpeed.x` etc., lines 58-60 of the source). -/
def Vec3.add (a b : Vec3) : Vec3 :=
  ⟨a.x + b.x, a.y + b.y, a.z + b.z⟩

/-- The embedding of `THREE.Vector3.lerp(target, alpha)`:
each component moves by `(target - current) * alpha`. -/
def Vec3.lerp (v target : Vec3) (alpha : ℝ) : Vec3 :=
  ⟨v.x + (target.x - v.x) * alpha,
   v.y + (target.y - v.y) * alpha,
   v.z + (target.z - v.z) * alpha⟩

/-- The vector with all three components equal to `s`, the embedding of
`scale.setScalar(s)`. -/
def Vec3.scalar (s : ℝ) : Vec3 := ⟨s, s, s⟩

/-- Squared Euclidean norm of a `Vec3`. -/
def Vec3.normSq (v : Vec3) : ℝ := v.x ^ 2 + v.y ^ 2 + v.z ^ 2

/-- Euclidean norm of a `Vec3` (distance from the origin). -/
def Vec3.norm (v : Vec3) : ℝ := Real.sqrt v.normSq

/-- Euclidean distance between two points. -/
def dist3 (a b : Vec3) : ℝ :=
  Real.sqrt ((a.x - b.x) ^ 2 + (a.y - b.y) ^ 2 + (a.z - b.z) ^ 2)

/-- The closed category enumeration of the source
(`type: 'leaf' | 'ornament' | 'light' | 'star' | 'snow' | 'trunk'`). -/
inductive PType where
  | leaf
  | ornament
  | light
  | star
  | snow
  | trunk
deriving DecidableEq

/-- The mutable visual state of a mesh that the animator touches:
transform (position, rotation, scale) and the material's emissive
intensity. -/
structure MeshState where
  position : Vec3
  rotation : Vec3
  scale : Vec3
  emissiveIntensity : ℝ


/-- One particle: the mesh state together with the fields set by the
`Particle` constructor (lines 23-43 of the source). -/
structure Particle where
  mesh : MeshState
  posTree : Vec3
  posScatter : Vec3
  initialScale : ℝ
  rotationSpeed : Vec3
  phase : ℝ
  type : PType


/-- The `Particle` constructor (source lines 23-43).  `initialScale` is
captured from `mesh.scale.x`; the rotation speed is built from three
uniform draws `ur1 ur2 ur3` as `(Math.random() - 0.5) * 0.02` per axis,
and the phase from a draw `uphase` as `Math.random() * Math.PI * 2`. -/
def Particle.make (mesh : MeshState) (treePos scatterPos : Vec3) (type : PType)
    (ur1 ur2 ur3 uphase : ℝ) : Particle :=
  { mesh := mesh
    posTree := treePos
    posScatter := scatterPos
    initialScale := mesh.scale.x
    rotationSpeed := ⟨(ur1 - 0.5) * 0.02, (ur2 - 0.5) * 0.02, (ur3 - 0.5) * 0.02⟩
    phase := uphase * Real.pi * 2
    type := type }

/-- The interpolation speed factor of `Particle.update` (source lines
50-53): start at 2.0, ornament 1.8, leaf 2.2, and override to 1.5
whenever the mode flag is not tree mode. -/
def updateSpeed (type : PType) (isTreeMode : Bool) : ℝ :=
  let speed : ℝ := 2.0
  let speed := if type = PType.ornament then 1.8 else speed
  let speed := if type = PType.leaf then 2.2 else speed
  let speed := if !isTreeMode then 1.5 else speed
  speed

/-- The embedding of `Particle.update(dt, isTreeMode, time)` (source
lines 45-88): lerp the position toward the mode-selected target at rate
`dt * speed`, increment the rotation by `rotationSpeed`, then apply the
category-specific effect (light blink, star pulse, snow extra spin). -/
def Particle.update (p : Particle) (dt : ℝ) (isTreeMode : Bool) (time : ℝ) :
    Particle :=
  let target := if isTreeMode then p.posTree else p.posScatter
  let speed := updateSpeed p.type isTreeMode
  let pos := p.mesh.position.lerp target (dt * speed)
  let rot := p.mesh.rotation.add p.rotationSpeed
  let mesh := { p.mesh with position := pos, rotation := rot }
  if p.type = PType.light then
    let blink := Real.sin (time * 3 + p.phase) * 0.5 + 0.5
    let scale := p.initialScale * (0.8 + blink * 0.4)
    { p with mesh := { mesh with
        emissiveIntensity := 0.5 + blink * 1.5
        scale := Vec3.scalar scale } }
  else if p.type = PType.star then
    let pulse := Real.sin (time * 2) * 0.2 + 1.0
    { p with mesh := { mesh with
        scale := Vec3.scalar (p.initialScale * pulse)
        emissiveIntensity := 1.0 + Real.sin (time * 4) * 0.5 } }
  else if p.type = PType.snow then
    { p with mesh := { mesh with
        rotation := { rot with y := rot.y + 0.01, z := rot.z + 0.005 } } }
  else
    { p with mesh := mesh }

/-- A per-iteration stream of `Math.random()` draws: each loop iteration
(and the single star placement) consumes finitely many uniform draws,
modelled as an arbitrary function from draw index to value. -/
def Rand : Type := ℕ → ℝ

/-! Generation parameters (source lines 250-255) and loop counts. -/

def TREE_HEIGHT : ℝ := 30
def TREE_WIDTH_BASE : ℝ := 14
def TRUNK_HEIGHT : ℝ := 4
def Y_OFFSET : ℝ := -18
def TRUNK_COUNT : ℕ := 250
def FOLIAGE_COUNT : ℕ := 8000
def ORNAMENT_COUNT : ℕ := 350
def LIGHT_COUNT : ℕ := 400
def TURNS : ℝ := 10
def SNOW_COUNT : ℕ := 700

/-- A freshly constructed `THREE.Mesh`: identity transform, and the
default material emissive intensity 1 (materials that set
`emissiveIntensity` explicitly override it via `withEmissive`). -/
def newMesh : MeshState :=
  { position := ⟨0, 0, 0⟩, rotation := ⟨0, 0, 0⟩, scale := ⟨1, 1, 1⟩
    emissiveIntensity := 1 }

/-- Replace a mesh's scale by a uniform scalar (`scale.setScalar`). -/
def MeshState.setScalarScale (m : MeshState) (s : ℝ) : MeshState :=
  { m with scale := Vec3.scalar s }

/-- Replace a mesh's material emissive intensity (material selection at
mesh construction). -/
def MeshState.withEmissive (m : MeshState) (e : ℝ) : MeshState :=
  { m with emissiveIntensity := e }

/-- The default random scatter position of `addParticle` (source lines
234-242): radius `35 + Math.random()*30`, uniform azimuth
`Math.random()*π*2`, polar angle `acos(2*Math.random() - 1)`. -/
def defaultScatterPos (u1 u2 u3 : ℝ) : Vec3 :=
  let r := 35 + u1 * 30
  let theta := u2 * Real.pi * 2
  let phi := Real.arccos (2 * u3 - 1)
  ⟨r * Real.sin phi * Real.cos theta,
   r * Real.sin phi * Real.sin theta,
   r * Real.cos phi⟩

/-- The scatter position computed inside the snow loop (source lines
393-399): radius `80 + Math.random()*20`, angles `phi = Math.random()*π*2`
and `theta = Math.random()*π`. -/
def snowScatterPos (ur uphi utheta : ℝ) : Vec3 :=
  let scatterR := 80 + ur * 20
  let phi := uphi * Real.pi * 2
  let theta := utheta * Real.pi
  ⟨scatterR * Real.sin theta * Real.cos phi,
   scatterR * Real.sin theta * Real.sin phi,
   scatterR * Real.cos theta⟩

/-- The `addParticle` helper (source lines 226-247): copy `pos` into the
mesh position, pick the scatter position (the supplied custom one, or a
default spherical scatter from draws `u1 u2 u3`), and construct the
`Particle` (which consumes `ur1 ur2 ur3 uphase`). -/
def addParticle (mesh : MeshState) (pos : Vec3) (type : PType)
    (customScatterPos : Option Vec3) (u1 u2 u3 ur1 ur2 ur3 uphase : ℝ) :
    Particle :=
  let mesh := { mesh with position := pos }
  let scatterPos :=
    match customScatterPos with
    | some c => c
    | none => defaultScatterPos u1 u2 u3
  Particle.make mesh pos scatterPos type ur1 ur2 ur3 uphase

/-- One iteration of the trunk loop (source lines 258-270). -/
def trunkStep (u : Rand) : Particle :=
  let h := u 0 * TRUNK_HEIGHT
  let theta := u 1 * Real.pi * 2
  let r := u 2 * 1.8
  let x := r * Real.cos theta
  let z := r * Real.sin theta
  let mesh := { newMesh with scale := ⟨0.3, 0.3, 0.3⟩ }
  addParticle mesh ⟨x, Y_OFFSET + h - TRUNK_HEIGHT + 1, z⟩ PType.trunk none
    (u 3) (u 4) (u 5) (u 6) (u 7) (u 8) (u 9)

/-- Emissive intensity of `leafMaterials[k]` = `[dark, mid, mid, bright]`
(source lines 183-192): only `matLeafBright` sets `emissiveIntensity`,
to 0.2. -/
def leafEmissive (k : ℕ) : ℝ := if k = 3 then 0.2 else 1

/-- The perturbed foliage radius of iteration `i` for a drawn radial
fraction `rNorm` (source lines 276-291): cone radius
`TREE_WIDTH_BASE * (1 - t)` times `rNorm`, times
`1 + branchNoise` with `branchNoise = sin(h*2.5)*0.2`, the noise being
applied only when `rNorm > 0.6`. -/
def foliageRadius (i : ℕ) (rNorm : ℝ) : ℝ :=
  let t : ℝ := (i : ℝ) / (FOLIAGE_COUNT : ℝ)
  let h := t * TREE_HEIGHT
  let maxR := TREE_WIDTH_BASE * (1 - t)
  let branchNoise := Real.sin (h * 2.5) * 0.2
  maxR * rNorm * (1 + branchNoise * (if rNorm > 0.6 then 1 else 0))

/-- One iteration of the foliage loop (source lines 274-311); `rNorm` is
`Math.pow(Math.random(), 0.8)`. -/
def foliageStep (i : ℕ) (u : Rand) : Particle :=
  let t : ℝ := (i : ℝ) / (FOLIAGE_COUNT : ℝ)
  let h := t * TREE_HEIGHT
  let rNorm := u 0 ^ (0.8 : ℝ)
  let r := foliageRadius i rNorm
  let theta := u 1 * Real.pi * 2
  let x := r * Real.cos theta
  let z := r * Real.sin theta
  let y := Y_OFFSET + h
  let s := (0.2 + u 3 * 0.3) * (1.2 - t * 0.4)
  let mesh :=
    { (newMesh.withEmissive (leafEmissive ⌊u 2 * 4⌋₊)).setScalarScale s with
      rotation := ⟨u 4 * Real.pi, u 5 * Real.pi, u 6 * Real.pi⟩ }
  addParticle mesh ⟨x, y, z⟩ PType.leaf none
    (u 7) (u 8) (u 9) (u 10) (u 11) (u 12) (u 13)

/-- Emissive intensity of `ornamentMaterials[k]` = `[gold, red, red,
silver]` (source lines 199-208): gold 0.4, red 0.3, silver 0.3. -/
def ornamentEmissive (k : ℕ) : ℝ := if k = 0 then 0.4 else 0.3

/-- One iteration of the ornament loop (source lines 315-340): the draw
`t` is rejected when `t > 0.98` (`continue`, skipping the very top tip),
otherwise one ornament particle is placed. -/
def ornamentStep (u : Rand) : Option Particle :=
  let t := u 0
  if t > 0.98 then none
  else
    let h := t * TREE_HEIGHT
    let maxR := TREE_WIDTH_BASE * (1 - t)
    let r := maxR * (0.8 + u 1 * 0.3)
    let theta := u 2 * Real.pi * 2
    let x := r * Real.cos theta
    let z := r * Real.sin theta
    let y := Y_OFFSET + h
    let isLarge := u 4 > 0.7
    let s := if isLarge then 0.6 + u 5 * 0.3 else 0.3 + u 5 * 0.2
    let mesh := (newMesh.withEmissive (ornamentEmissive ⌊u 3 * 4⌋₊)).setScalarScale s
    some (addParticle mesh ⟨x, y, z⟩ PType.ornament none
      (u 6) (u 7) (u 8) (u 9) (u 10) (u 11) (u 12))

/-- One iteration of the light loop (source lines 345-364): spiral
placement; both light materials have `emissiveIntensity` 2.0. -/
def lightStep (i : ℕ) (u : Rand) : Particle :=
  let t : ℝ := (i : ℝ) / (LIGHT_COUNT : ℝ)
  let h := t * TREE_HEIGHT
  let maxR := TREE_WIDTH_BASE * (1 - t)
  let angle := t * Real.pi * 2 * TURNS
  let r := (maxR + 0.5) * (0.95 + u 0 * 0.1)
  let x := r * Real.cos angle
  let z := r * Real.sin angle
  let y := Y_OFFSET + h
  let mesh := (newMesh.withEmissive 2.0).setScalarScale 0.25
  addParticle mesh ⟨x, y, z⟩ PType.light none
    (u 2) (u 3) (u 4) (u 5) (u 6) (u 7) (u 8)

/-- The single star placement (source lines 367-378); the two halo
sub-meshes are children of the star mesh and carry no independent
particle state.  The star is added through `addParticle` with no custom
scatter position. -/
def starStep (u : Rand) : Particle :=
  let mesh := newMesh.setScalarScale 2.5
  addParticle mesh ⟨0, Y_OFFSET + TREE_HEIGHT + 1.5, 0⟩ PType.star none
    (u 0) (u 1) (u 2) (u 3) (u 4) (u 5) (u 6)

/-- One iteration of the snow loop (source lines 383-402): a custom
far-field scatter position is supplied, so `addParticle`'s default
scatter draws are not consumed. -/
def snowStep (u : Rand) : Particle :=
  let range : ℝ := 70
  let x := (u 0 - 0.5) * range
  let y := (u 1 - 0.5) * range + 10
  let z := (u 2 - 0.5) * range
  let mesh := newMesh.setScalarScale 0.12
  addParticle mesh ⟨x, y, z⟩ PType.snow (some (snowScatterPos (u 3) (u 4) (u 5)))
    (u 3) (u 4) (u 5) (u 6) (u 7) (u 8) (u 9)

/-- The full scene generation (source lines 256-404): trunk, foliage,
ornament, light, star and snow segments pushed onto the `particles`
array in that order.  Each loop iteration `i` draws from its own stream
(`ut i`, `uf i`, ...). -/
def genScene (ut uf uo ul : ℕ → Rand) (ustar : Rand) (usn : ℕ → Rand) :
    List Particle :=
  ((List.range TRUNK_COUNT).map fun i => trunkStep (ut i))
    ++ ((List.range FOLIAGE_COUNT).map fun i => foliageStep i (uf i))
    ++ ((List.range ORNAMENT_COUNT).filterMap fun i => ornamentStep (uo i))
    ++ ((List.range LIGHT_COUNT).map fun i => lightStep i (ul i))
    ++ [starStep ustar]
    ++ ((List.range SNOW_COUNT).map fun i => snowStep (usn i))

/-! Helper lemmas about the embedded operations. -/

/-- The distance of a point to itself is zero. -/
lemma dist3_self (a : Vec3) : dist3 a a = 0 := by
  unfold dist3
  simp

/-- Distinct points are at strictly positive distance. -/
lemma dist3_pos {v t : Vec3} (h : v ≠ t) : 0 < dist3 v t := by
  have hne : v.x ≠ t.x ∨ v.y ≠ t.y ∨ v.z ≠ t.z := by
    by_contra hc
    push_neg at hc
    exact h (by cases v; cases t; simp_all)
  have hS : 0 < (v.x - t.x) ^ 2 + (v.y - t.y) ^ 2 + (v.z - t.z) ^ 2 := by
    rcases hne with h1 | h1 | h1
    · have h2 : (0 : ℝ) < (v.x - t.x) ^ 2 :=
        lt_of_le_of_ne (sq_nonneg _) (Ne.symm (pow_ne_zero 2 (sub_ne_zero.mpr h1)))
      nlinarith [sq_nonneg (v.y - t.y), sq_nonneg (v.z - t.z)]
    · have h2 : (0 : ℝ) < (v.y - t.y) ^ 2 :=
        lt_of_le_of_ne (sq_nonneg _) (Ne.symm (pow_ne_zero 2 (sub_ne_zero.mpr h1)))
      nlinarith [sq_nonneg (v.x - t.x), sq_nonneg (v.z - t.z)]
    · have h2 : (0 : ℝ) < (v.z - t.z) ^ 2 :=
        lt_of_le_of_ne (sq_nonneg _) (Ne.symm (pow_ne_zero 2 (sub_ne_zero.mpr h1)))
      nlinarith [sq_nonneg (v.x - t.x), sq_nonneg (v.y - t.y)]
  unfold dist3
  exact Real.sqrt_pos.mpr hS

/-- Interpolating by a factor `α ≤ 1` contracts the distance to the
target by exactly the factor `1 - α`. -/
lemma dist3_lerp (v t : Vec3) (α : ℝ) (hα : α ≤ 1) :
    dist3 (v.lerp t α) t = (1 - α) * dist3 v t := by
  unfold dist3 Vec3.lerp
  have key : (v.x + (t.x - v.x) * α - t.x) ^ 2 + (v.y + (t.y - v.y) * α - t.y) ^ 2 +
      (v.z + (t.z - v.z) * α - t.z) ^ 2
      = (1 - α) ^ 2 * ((v.x - t.x) ^ 2 + (v.y - t.y) ^ 2 + (v.z - t.z) ^ 2) := by
    ring
  rw [key, Real.sqrt_mul (sq_nonneg _), Real.sqrt_sq_eq_abs,
    abs_of_nonneg (by linarith)]

/-- Every branch of `Particle.update` moves the mesh position by the same
lerp step (the category-specific branches touch scale, emissive
intensity and rotation only). -/
lemma update_position (p : Particle) (dt : ℝ) (mode : Bool) (time : ℝ) :
    (p.update dt mode time).mesh.position
      = p.mesh.position.lerp (if mode then p.posTree else p.posScatter)
          (dt * updateSpeed p.type mode) := by
  rcases p with ⟨m, pt, ps, is, rs, ph, ty⟩
  cases ty <;> simp [Particle.update]

/-! Concrete particles used to instantiate theorems with hypotheses. -/

/-- A concrete trunk particle one unit away from its tree target. -/
def probeParticle : Particle :=
  { mesh := { position := ⟨1, 0, 0⟩, rotation := ⟨0, 0, 0⟩, scale := ⟨1, 1, 1⟩
              emissiveIntensity := 1 }
    posTree := ⟨0, 0, 0⟩
    posScatter := ⟨40, 0, 0⟩
    initialScale := 1
    rotationSpeed := ⟨0, 0, 0⟩
    phase := 0
    type := PType.trunk }

/-- A concrete light particle. -/
def lightProbe : Particle :=
  { probeParticle with type := PType.light }

/-- A concrete star particle. -/
def starProbe : Particle :=
  { probeParticle with type := PType.star }

/-! Claim theorems. -/

/-- C1: under a fixed mode and a frame delta-time whose product with the
category speed factor lies strictly between 0 and 1, each call to
`Particle.update` strictly decreases the Euclidean distance from the
particle's position to the mode-selected target, unless the position
already equals the target. -/
theorem update_strictly_decreases_distance (p : Particle) (dt : ℝ) (mode : Bool)
    (time : ℝ) (h0 : 0 < dt * updateSpeed p.type mode)
    (h1 : dt * updateSpeed p.type mode < 1)
    (hne : p.mesh.position ≠ (if mode then p.posTree else p.posScatter)) :
    dist3 (p.update dt mode time).mesh.position
        (if mode then p.posTree else p.posScatter)
      < dist3 p.mesh.position (if mode then p.posTree else p.posScatter) := by
  rw [update_position, dist3_lerp _ _ _ (le_of_lt h1)]
  have hd := dist3_pos hne
  nlinarith

/-- Witness for C1: the concrete trunk particle at distance 1 from its
tree target, with `dt = 1/4` in tree mode (rate `1/2`), moves strictly
closer. -/
theorem update_strictly_decreases_distance_witness :
    (0 < (1 / 4 : ℝ) * updateSpeed probeParticle.type true ∧
      (1 / 4 : ℝ) * updateSpeed probeParticle.type true < 1 ∧
      probeParticle.mesh.position
        ≠ (if true then probeParticle.posTree else probeParticle.posScatter)) ∧
    dist3 (probeParticle.update (1 / 4) true 0).mesh.position
        (if true then probeParticle.posTree else probeParticle.posScatter)
      < dist3 probeParticle.mesh.position
          (if true then probeParticle.posTree else probeParticle.posScatter) := by
  have hs : updateSpeed probeParticle.type true = 2 := by
    simp [probeParticle, updateSpeed]
    norm_num
  have hne : probeParticle.mesh.position
      ≠ (if true then probeParticle.posTree else probeParticle.posScatter) := by
    simp only [if_true, probeParticle]
    intro hc
    have := congrArg Vec3.x hc
    norm_num at this
  refine ⟨⟨by rw [hs]; norm_num, by rw [hs]; norm_num, hne⟩, ?_⟩
  exact update_strictly_decreases_distance probeParticle (1 / 4) true 0
    (by rw [hs]; norm_num) (by rw [hs]; norm_num) hne

/-- C2: the interpolation rate used by `Particle.update` equals
delta-time times a speed factor of 1.8 for ornament, 2.2 for leaf and
2.0 otherwise in tree (assembled) mode, and 1.5 for every category in
dispersed mode. -/
theorem update_rate_eq (p : Particle) (dt : ℝ) (mode : Bool) (time : ℝ) :
    (p.update dt mode time).mesh.position
      = p.mesh.position.lerp (if mode then p.posTree else p.posScatter)
          (dt * (if mode then
              (if p.type = PType.ornament then 1.8
               else if p.type = PType.leaf then 2.2 else 2.0)
            else 1.5)) := by
  rw [update_position]
  rcases p with ⟨m, pt, ps, is, rs, ph, ty⟩
  cases mode <;> cases ty <;> simp [updateSpeed]

/-- C4: the emissive intensity set by `Particle.update` lies in
`[0.5, 2.0]` for every light particle (for any real time and phase) and
in `[0.5, 1.5]` for the star (for any real time). -/
theorem emissive_intensity_bounds (p : Particle) (dt : ℝ) (mode : Bool) (time : ℝ) :
    (p.type = PType.light →
      0.5 ≤ (p.update dt mode time).mesh.emissiveIntensity ∧
      (p.update dt mode time).mesh.emissiveIntensity ≤ 2.0) ∧
    (p.type = PType.star →
      0.5 ≤ (p.update dt mode time).mesh.emissiveIntensity ∧
      (p.update dt mode time).mesh.emissiveIntensity ≤ 1.5) := by
  constructor
  · intro h
    have hei : (p.update dt mode time).mesh.emissiveIntensity
        = 0.5 + (Real.sin (time * 3 + p.phase) * 0.5 + 0.5) * 1.5 := by
      simp [Particle.update, h]
    have h1 := Real.neg_one_le_sin (time * 3 + p.phase)
    have h2 := Real.sin_le_one (time * 3 + p.phase)
    rw [hei]
    constructor <;> nlinarith
  · intro h
    have hei : (p.update dt mode time).mesh.emissiveIntensity
        = 1.0 + Real.sin (time * 4) * 0.5 := by
      simp [Particle.update, h]
    have h1 := Real.neg_one_le_sin (time * 4)
    have h2 := Real.sin_le_one (time * 4)
    rw [hei]
    constructor <;> nlinarith

/-- Witness for C4: the bounds instantiated at the concrete light and
star particles with `dt = 1`, tree mode and `time = 0`. -/
theorem emissive_intensity_bounds_witness :
    (lightProbe.type = PType.light ∧
      0.5 ≤ (lightProbe.update 1 true 0).mesh.emissiveIntensity ∧
      (lightProbe.update 1 true 0).mesh.emissiveIntensity ≤ 2.0) ∧
    (starProbe.type = PType.star ∧
      0.5 ≤ (starProbe.update 1 true 0).mesh.emissiveIntensity ∧
      (starProbe.update 1 true 0).mesh.emissiveIntensity ≤ 1.5) :=
  ⟨⟨rfl, (emissive_intensity_bounds lightProbe 1 true 0).1 rfl⟩,
   ⟨rfl, (emissive_intensity_bounds starProbe 1 true 0).2 rfl⟩⟩

/-- C5: `Particle.update` never modifies `initialScale`; the scale it
writes is a function of `initialScale`, the current time and the phase
only (light: `initialScale * (0.8 + blink * 0.4)`, star:
`initialScale * (1.0 + sin(time*2) * 0.2)`, all other categories keep
their scale); consequently a second update does not compound with the
scale written by a first update. -/
theorem scale_never_compounds (p : Particle) (dt dta : ℝ) (mode moda : Bool)
    (time tima : ℝ) :
    (p.update dt mode time).initialScale = p.initialScale ∧
    (p.update dt mode time).mesh.scale
      = (match p.type with
         | PType.light => Vec3.scalar (p.initialScale *
             (0.8 + (Real.sin (time * 3 + p.phase) * 0.5 + 0.5) * 0.4))
         | PType.star => Vec3.scalar (p.initialScale *
             (Real.sin (time * 2) * 0.2 + 1.0))
         | _ => p.mesh.scale) ∧
    ((p.update dta moda tima).update dt mode time).mesh.scale
      = (p.update dt mode time).mesh.scale := by
  rcases p with ⟨m, pt, ps, is, rs, ph, ty⟩
  cases ty <;> simp [Particle.update]

/-- C8: for a leaf, ornament or trunk particle, `Particle.update`
changes only the mesh position (by the lerp step) and the rotation (by
the per-axis increment); the scale, the emissive intensity and every
constructor-set field are unchanged. -/
theorem plain_categories_update_effect (p : Particle) (dt : ℝ) (mode : Bool)
    (time : ℝ)
    (h : p.type = PType.leaf ∨ p.type = PType.ornament ∨ p.type = PType.trunk) :
    (p.update dt mode time).mesh.scale = p.mesh.scale ∧
    (p.update dt mode time).mesh.emissiveIntensity = p.mesh.emissiveIntensity ∧
    (p.update dt mode time).mesh.position
      = p.mesh.position.lerp (if mode then p.posTree else p.posScatter)
          (dt * updateSpeed p.type mode) ∧
    (p.update dt mode time).mesh.rotation = p.mesh.rotation.add p.rotationSpeed ∧
    (p.update dt mode time).posTree = p.posTree ∧
    (p.update dt mode time).posScatter = p.posScatter ∧
    (p.update dt mode time).initialScale = p.initialScale ∧
    (p.update dt mode time).rotationSpeed = p.rotationSpeed ∧
    (p.update dt mode time).phase = p.phase ∧
    (p.update dt mode time).type = p.type := by
  rcases h with h | h | h <;> simp [Particle.update, h]

/-- Witness for C8: the effect of one update on the concrete trunk
particle. -/
theorem plain_categories_update_effect_witness :
    (probeParticle.type = PType.leaf ∨ probeParticle.type = PType.ornament ∨
      probeParticle.type = PType.trunk) ∧
    ((probeParticle.update 1 true 0).mesh.scale = probeParticle.mesh.scale ∧
      (probeParticle.update 1 true 0).mesh.emissiveIntensity
        = probeParticle.mesh.emissiveIntensity ∧
      (probeParticle.update 1 true 0).mesh.position
        = probeParticle.mesh.position.lerp
            (if true then probeParticle.posTree else probeParticle.posScatter)
            (1 * updateSpeed probeParticle.type true) ∧
      (probeParticle.update 1 true 0).mesh.rotation
        = probeParticle.mesh.rotation.add probeParticle.rotationSpeed ∧
      (probeParticle.update 1 true 0).posTree = probeParticle.posTree ∧
      (probeParticle.update 1 true 0).posScatter = probeParticle.posScatter ∧
      (probeParticle.update 1 true 0).initialScale = probeParticle.initialScale ∧
      (probeParticle.update 1 true 0).rotationSpeed = probeParticle.rotationSpeed ∧
      (probeParticle.update 1 true 0).phase = probeParticle.phase ∧
      (probeParticle.update 1 true 0).type = probeParticle.type) :=
  ⟨Or.inr (Or.inr rfl),
   plain_categories_update_effect probeParticle 1 true 0 (Or.inr (Or.inr rfl))⟩

/-- C9: `Particle.update` draws no randomness — two particles whose
observable state fields all agree are mapped to equal states by an
update with the same arguments. -/
theorem update_deterministic (p q : Particle) (dt : ℝ) (mode : Bool) (time : ℝ)
    (hpos : p.mesh.position = q.mesh.position)
    (hrot : p.mesh.rotation = q.mesh.rotation)
    (hscale : p.mesh.scale = q.mesh.scale)
    (hei : p.mesh.emissiveIntensity = q.mesh.emissiveIntensity)
    (hpt : p.posTree = q.posTree) (hps : p.posScatter = q.posScatter)
    (his : p.initialScale = q.initialScale)
    (hrs : p.rotationSpeed = q.rotationSpeed)
    (hph : p.phase = q.phase) (hty : p.type = q.type) :
    p.update dt mode time = q.update dt mode time := by
  have hpq : p = q := by
    rcases p with ⟨⟨pa, pb, pc, pd⟩, pe, pf, pg, ph2, pi2, pj⟩
    rcases q with ⟨⟨qa, qb, qc, qd⟩, qe, qf, qg, qh, qi, qj⟩
    simp_all
  rw [hpq]

/-- Witness for C9: determinism instantiated at two (syntactically
identical) copies of the concrete trunk particle. -/
theorem update_deterministic_witness :
    (probeParticle.mesh.position = probeParticle.mesh.position ∧
      probeParticle.type = probeParticle.type) ∧
    probeParticle.update 1 true 0 = probeParticle.update 1 true 0 :=
  ⟨⟨rfl, rfl⟩,
   update_deterministic probeParticle probeParticle 1 true 0
     rfl rfl rfl rfl rfl rfl rfl rfl rfl rfl⟩

/-- C10: `addParticle` copies the supplied tree position into the mesh
before constructing the `Particle`, so every particle starts with its
mesh position equal to its assembled-layout target and at distance zero
from it. -/
theorem addParticle_starts_assembled (mesh : MeshState) (pos : Vec3) (type : PType)
    (custom : Option Vec3) (u1 u2 u3 ur1 ur2 ur3 uphase : ℝ) :
    (addParticle mesh pos type custom u1 u2 u3 ur1 ur2 ur3 uphase).mesh.position
        = pos ∧
    (addParticle mesh pos type custom u1 u2 u3 ur1 ur2 ur3 uphase).posTree = pos ∧
    (addParticle mesh pos type custom u1 u2 u3 ur1 ur2 ur3 uphase).mesh.position
        = (addParticle mesh pos type custom u1 u2 u3 ur1 ur2 ur3 uphase).posTree ∧
    dist3 (addParticle mesh pos type custom u1 u2 u3 ur1 ur2 ur3 uphase).mesh.position
        (addParticle mesh pos type custom u1 u2 u3 ur1 ur2 ur3 uphase).posTree
      = 0 := by
  refine ⟨rfl, rfl, rfl, ?_⟩
  exact dist3_self _

/-- Norm of a spherically parametrized point: the angular factors cancel
and only the radius remains. -/
lemma norm_spherical (r a b : ℝ) :
    Vec3.norm ⟨r * Real.sin a * Real.cos b, r * Real.sin a * Real.sin b,
      r * Real.cos a⟩ = |r| := by
  unfold Vec3.norm Vec3.normSq
  have h1 : Real.sin a ^ 2 + Real.cos a ^ 2 = 1 := Real.sin_sq_add_cos_sq a
  have h2 : Real.sin b ^ 2 + Real.cos b ^ 2 = 1 := Real.sin_sq_add_cos_sq b
  have key : (r * Real.sin a * Real.cos b) ^ 2 + (r * Real.sin a * Real.sin b) ^ 2 +
      (r * Real.cos a) ^ 2 = r ^ 2 := by
    calc (r * Real.sin a * Real.cos b) ^ 2 + (r * Real.sin a * Real.sin b) ^ 2 +
        (r * Real.cos a) ^ 2
        = (r * Real.sin a) ^ 2 * (Real.sin b ^ 2 + Real.cos b ^ 2)
            + (r * Real.cos a) ^ 2 := by ring
      _ = r ^ 2 * (Real.sin a ^ 2 + Real.cos a ^ 2) := by rw [h2]; ring
      _ = r ^ 2 := by rw [h1]; ring
  rw [key, Real.sqrt_sq_eq_abs]

/-- The default scatter rule produces a point at distance exactly
`35 + u1 * 30` from the origin (for a nonnegative radius draw). -/
lemma norm_defaultScatterPos (u1 u2 u3 : ℝ) (h : 0 ≤ u1) :
    (defaultScatterPos u1 u2 u3).norm = 35 + u1 * 30 := by
  unfold defaultScatterPos
  rw [norm_spherical]
  exact abs_of_nonneg (by linarith)

/-- The snow scatter rule produces a point at distance exactly
`80 + ur * 20` from the origin (for a nonnegative radius draw). -/
lemma norm_snowScatterPos (ur uphi utheta : ℝ) (h : 0 ≤ ur) :
    (snowScatterPos ur uphi utheta).norm = 80 + ur * 20 := by
  unfold snowScatterPos
  rw [norm_spherical]
  exact abs_of_nonneg (by linarith)

/-- An ornament iteration that places a particle does so with the
default scatter rule on draws 6, 7 and 8. -/
lemma ornamentStep_posScatter (u : Rand) (p : Particle)
    (hp : ornamentStep u = some p) :
    p.posScatter = defaultScatterPos (u 6) (u 7) (u 8) := by
  by_cases hc : u 0 > 0.98
  · simp [ornamentStep, hc] at hp
  · simp [ornamentStep, hc] at hp
    rw [← hp]
    rfl

/-- C3: every scatter target produced for a trunk, leaf, ornament,
light or star particle lies at Euclidean distance at least 35 from the
origin, every snow scatter target lies at distance at least 80, and the
star's scatter target comes from the same default rule as the other
non-snow categories. -/
theorem scatter_radius_bounds (u : Rand) (hu : ∀ n, 0 ≤ u n) :
    35 ≤ (trunkStep u).posScatter.norm ∧
    (∀ i, 35 ≤ (foliageStep i u).posScatter.norm) ∧
    (∀ p, ornamentStep u = some p → 35 ≤ p.posScatter.norm) ∧
    (∀ i, 35 ≤ (lightStep i u).posScatter.norm) ∧
    35 ≤ (starStep u).posScatter.norm ∧
    (starStep u).posScatter = defaultScatterPos (u 0) (u 1) (u 2) ∧
    80 ≤ (snowStep u).posScatter.norm := by
  refine ⟨?_, fun i => ?_, fun p hp => ?_, fun i => ?_, ?_, rfl, ?_⟩
  · show (35 : ℝ) ≤ (defaultScatterPos (u 3) (u 4) (u 5)).norm
    rw [norm_defaultScatterPos _ _ _ (hu 3)]
    nlinarith [hu 3]
  · show (35 : ℝ) ≤ (defaultScatterPos (u 7) (u 8) (u 9)).norm
    rw [norm_defaultScatterPos _ _ _ (hu 7)]
    nlinarith [hu 7]
  · rw [ornamentStep_posScatter u p hp,
      norm_defaultScatterPos _ _ _ (hu 6)]
    nlinarith [hu 6]
  · show (35 : ℝ) ≤ (defaultScatterPos (u 2) (u 3) (u 4)).norm
    rw [norm_defaultScatterPos _ _ _ (hu 2)]
    nlinarith [hu 2]
  · show (35 : ℝ) ≤ (defaultScatterPos (u 0) (u 1) (u 2)).norm
    rw [norm_defaultScatterPos _ _ _ (hu 0)]
    nlinarith [hu 0]
  · show (80 : ℝ) ≤ (snowScatterPos (u 3) (u 4) (u 5)).norm
    rw [norm_snowScatterPos _ _ _ (hu 3)]
    nlinarith [hu 3]

/-- Witness for C3: the bounds at the all-zeros draw stream. -/
theorem scatter_radius_bounds_witness :
    (∀ n : ℕ, (0 : ℝ) ≤ (fun _ : ℕ => (0 : ℝ)) n) ∧
    (35 ≤ (trunkStep (fun _ => 0)).posScatter.norm ∧
      (∀ i, 35 ≤ (foliageStep i (fun _ => 0)).posScatter.norm) ∧
      (∀ p, ornamentStep (fun _ => 0) = some p → 35 ≤ p.posScatter.norm) ∧
      (∀ i, 35 ≤ (lightStep i (fun _ => 0)).posScatter.norm) ∧
      35 ≤ (starStep (fun _ => 0)).posScatter.norm ∧
      (starStep (fun _ => 0)).posScatter
        = defaultScatterPos ((fun _ : ℕ => (0 : ℝ)) 0) ((fun _ : ℕ => (0 : ℝ)) 1)
            ((fun _ : ℕ => (0 : ℝ)) 2) ∧
      80 ≤ (snowStep (fun _ => 0)).posScatter.norm) :=
  ⟨fun _ => le_refl 0, scatter_radius_bounds (fun _ => 0) (fun _ => le_refl 0)⟩

/-- Number of particles of category `c` in a list. -/
def countType (l : List Particle) (c : PType) : ℕ :=
  l.countP fun p => decide (p.type = c)

lemma countType_append (l1 l2 : List Particle) (c : PType) :
    countType (l1 ++ l2) c = countType l1 c + countType l2 c :=
  List.countP_append _ _ _

/-- Counting category `cq` in a list whose particles all have category
`c` gives the whole length or zero. -/
lemma countType_all_of (ps : List Particle) (c cq : PType)
    (h : ∀ p ∈ ps, p.type = c) :
    countType ps cq = if cq = c then ps.length else 0 := by
  unfold countType
  by_cases hc : cq = c
  · subst hc
    rw [if_pos rfl, List.countP_eq_length.mpr]
    intro p hp
    simp [h p hp]
  · rw [if_neg hc, List.countP_eq_zero.mpr]
    intro p hp
    simp [h p hp]
    exact fun he => hc he.symm

lemma ornamentStep_type (u : Rand) (p : Particle)
    (hp : ornamentStep u = some p) : p.type = PType.ornament := by
  by_cases hc : u 0 > 0.98
  · simp [ornamentStep, hc] at hp
  · simp [ornamentStep, hc] at hp
    rw [← hp]
    rfl

/-- An ornament iteration yields a particle exactly when the height draw
is at most 0.98. -/
lemma ornamentStep_isSome (u : Rand) :
    (ornamentStep u).isSome = decide (u 0 ≤ 0.98) := by
  by_cases hc : u 0 > 0.98
  · simp [ornamentStep, hc, not_le.mpr hc]
  · simp [ornamentStep, hc, not_lt.mp hc]

/-- The ornament segment has one particle per non-skipped draw. -/
lemma ornament_filterMap_length (uo : ℕ → Rand) (l : List ℕ) :
    (l.filterMap fun i => ornamentStep (uo i)).length
      = (l.filter fun i => decide ((uo i) 0 ≤ 0.98)).length := by
  induction l with
  | nil => rfl
  | cons a l ih =>
    rw [List.filterMap_cons, List.filter_cons]
    cases hos : ornamentStep (uo a) with
    | none =>
      have hd : decide ((uo a) 0 ≤ 0.98) = false := by
        rw [← ornamentStep_isSome, hos]
        rfl
      simp [hd, ih]
    | some p =>
      have hd : decide ((uo a) 0 ≤ 0.98) = true := by
        rw [← ornamentStep_isSome, hos]
        rfl
      simp [hd, ih]

/-- C6: scene setup creates exactly 250 trunk, 8000 leaf, 400 light,
1 star and 700 snow particles; an ornament iteration places a particle
iff its draw `t` satisfies `t ≤ 0.98`, so the ornament count is the
number of non-skipped draws (at most 350); and the total list length is
the sum of the per-category counts. -/
theorem scene_category_counts (ut uf uo ul : ℕ → Rand) (ustar : Rand)
    (usn : ℕ → Rand) :
    countType (genScene ut uf uo ul ustar usn) PType.trunk = 250 ∧
    countType (genScene ut uf uo ul ustar usn) PType.leaf = 8000 ∧
    countType (genScene ut uf uo ul ustar usn) PType.light = 400 ∧
    countType (genScene ut uf uo ul ustar usn) PType.star = 1 ∧
    countType (genScene ut uf uo ul ustar usn) PType.snow = 700 ∧
    countType (genScene ut uf uo ul ustar usn) PType.ornament
      = ((List.range ORNAMENT_COUNT).filter
          fun i => decide ((uo i) 0 ≤ 0.98)).length ∧
    ((List.range ORNAMENT_COUNT).filter
        fun i => decide ((uo i) 0 ≤ 0.98)).length ≤ 350 ∧
    (∀ v : Rand, (ornamentStep v).isSome = decide (v 0 ≤ 0.98)) ∧
    (genScene ut uf uo ul ustar usn).length
      = 250 + 8000
        + ((List.range ORNAMENT_COUNT).filter
            fun i => decide ((uo i) 0 ≤ 0.98)).length
        + 400 + 1 + 700 := by
  have hT : ∀ cq, countType ((List.range TRUNK_COUNT).map fun i => trunkStep (ut i)) cq
      = if cq = PType.trunk then 250 else 0 := by
    intro cq
    rw [countType_all_of _ PType.trunk cq ?_]
    · simp [TRUNK_COUNT]
    · intro p hp
      obtain ⟨i, _, rfl⟩ := List.mem_map.mp hp
      rfl
  have hF : ∀ cq, countType ((List.range FOLIAGE_COUNT).map fun i => foliageStep i (uf i)) cq
      = if cq = PType.leaf then 8000 else 0 := by
    intro cq
    rw [countType_all_of _ PType.leaf cq ?_]
    · simp [FOLIAGE_COUNT]
    · intro p hp
      obtain ⟨i, _, rfl⟩ := List.mem_map.mp hp
      rfl
  have hO : ∀ cq, countType ((List.range ORNAMENT_COUNT).filterMap fun i => ornamentStep (uo i)) cq
      = if cq = PType.ornament then
          ((List.range ORNAMENT_COUNT).filter fun i => decide ((uo i) 0 ≤ 0.98)).length
        else 0 := by
    intro cq
    rw [countType_all_of _ PType.ornament cq ?_]
    · rw [ornament_filterMap_length]
    · intro p hp
      obtain ⟨i, _, hi⟩ := List.mem_filterMap.mp hp
      exact ornamentStep_type _ _ hi
  have hL : ∀ cq, countType ((List.range LIGHT_COUNT).map fun i => lightStep i (ul i)) cq
      = if cq = PType.light then 400 else 0 := by
    intro cq
    rw [countType_all_of _ PType.light cq ?_]
    · simp [LIGHT_COUNT]
    · intro p hp
      obtain ⟨i, _, rfl⟩ := List.mem_map.mp hp
      rfl
  have hS : ∀ cq, countType [starStep ustar] cq
      = if cq = PType.star then 1 else 0 := by
    intro cq
    rw [countType_all_of _ PType.star cq ?_]
    · rfl
    · intro p hp
      rw [List.mem_singleton] at hp
      rw [hp]
      rfl
  have hN : ∀ cq, countType ((List.range SNOW_COUNT).map fun i => snowStep (usn i)) cq
      = if cq = PType.snow then 700 else 0 := by
    intro cq
    rw [countType_all_of _ PType.snow cq ?_]
    · simp [SNOW_COUNT]
    · intro p hp
      obtain ⟨i, _, rfl⟩ := List.mem_map.mp hp
      rfl
  have hall : ∀ cq, countType (genScene ut uf uo ul ustar usn) cq
      = (if cq = PType.trunk then 250 else 0)
        + (if cq = PType.leaf then 8000 else 0)
        + (if cq = PType.ornament then
            ((List.range ORNAMENT_COUNT).filter fun i => decide ((uo i) 0 ≤ 0.98)).length
          else 0)
        + (if cq = PType.light then 400 else 0)
        + (if cq = PType.star then 1 else 0)
        + (if cq = PType.snow then 700 else 0) := by
    intro cq
    unfold genScene
    rw [countType_append, countType_append, countType_append, countType_append,
      countType_append, hT, hF, hO, hL, hS, hN]
  refine ⟨?_, ?_, ?_, ?_, ?_, ?_, ?_, ornamentStep_isSome, ?_⟩
  · simp [hall]
  · simp [hall]
  · simp [hall]
  · simp [hall]
  · simp [hall]
  · simp [hall]
  · calc ((List.range ORNAMENT_COUNT).filter fun i => decide ((uo i) 0 ≤ 0.98)).length
        ≤ (List.range ORNAMENT_COUNT).length := List.length_filter_le _ _
      _ = 350 := by simp [ORNAMENT_COUNT]
  · unfold genScene
    simp only [List.length_append, List.length_map, List.length_range,
      List.length_singleton, ornament_filterMap_length]
    simp [TRUNK_COUNT, FOLIAGE_COUNT, LIGHT_COUNT, SNOW_COUNT]

/-- For a radial fraction at most 0.6 the branch noise is switched off. -/
lemma foliageRadius_eq_of_le (i : ℕ) (rNorm : ℝ) (h : rNorm ≤ 0.6) :
    foliageRadius i rNorm
      = TREE_WIDTH_BASE * (1 - (i : ℝ) / (FOLIAGE_COUNT : ℝ)) * rNorm := by
  simp only [foliageRadius]
  rw [if_neg (not_lt.mpr h)]
  ring

/-- For a radial fraction above 0.6 the branch noise multiplies the
radius by `1 + sin(h * 2.5) * 0.2`. -/
lemma foliageRadius_eq_of_gt (i : ℕ) (rNorm : ℝ) (h : 0.6 < rNorm) :
    foliageRadius i rNorm
      = TREE_WIDTH_BASE * (1 - (i : ℝ) / (FOLIAGE_COUNT : ℝ)) * rNorm
          * (1 + Real.sin ((i : ℝ) / (FOLIAGE_COUNT : ℝ) * TREE_HEIGHT * 2.5) * 0.2) := by
  simp only [foliageRadius]
  rw [if_pos h]
  ring

/-- C7 counterexample: at foliage iteration 427 the sine argument is
`(427/8000 * 30) * 2.5 = 4.003125`, which lies in `(π, 2π)`, so the
branch noise is negative and the perturbed radius for radial fraction
0.7 is strictly SMALLER than the unperturbed radius `maxR * rNorm` —
the claim that the perturbation is always outward is false. -/
theorem foliage_perturbation_not_outward :
    foliageRadius 427 0.7
      < TREE_WIDTH_BASE * (1 - ((427 : ℕ) : ℝ) / (FOLIAGE_COUNT : ℝ)) * 0.7 := by
  have harg : ((427 : ℕ) : ℝ) / (FOLIAGE_COUNT : ℝ) * TREE_HEIGHT * 2.5
      = 1281 / 320 := by
    norm_num [FOLIAGE_COUNT, TREE_HEIGHT]
  have hπu : Real.pi < 3.15 := Real.pi_lt_d2
  have hπl : 3.14 < Real.pi := Real.pi_gt_d2
  have hsin : Real.sin ((1281 : ℝ) / 320) < 0 := by
    have h1 : (0 : ℝ) < 1281 / 320 - Real.pi := by linarith
    have h2 : (1281 : ℝ) / 320 - Real.pi < Real.pi := by linarith
    have h3 := Real.sin_pos_of_pos_of_lt_pi h1 h2
    rw [Real.sin_sub_pi] at h3
    linarith
  rw [foliageRadius_eq_of_gt 427 0.7 (by norm_num), harg]
  have hM : (0 : ℝ) < TREE_WIDTH_BASE * (1 - ((427 : ℕ) : ℝ) / (FOLIAGE_COUNT : ℝ)) * 0.7 := by
    norm_num [TREE_WIDTH_BASE, FOLIAGE_COUNT]
  nlinarith [hsin, hM]

/-- C7 amended: in foliage placement, for radial fraction `rNorm ≤ 0.6`
the radius is the unperturbed `maxR * rNorm`; for `rNorm > 0.6` the
sinusoidal height term multiplies the radius by `1 + sin(h*2.5) * 0.2`,
a factor between 0.8 and 1.2, so the radius is perturbed by at most 20
percent in either direction (not necessarily outward). -/
theorem foliage_perturbation_bounded (i : ℕ) (rNorm : ℝ)
    (hi : i < FOLIAGE_COUNT) :
    (rNorm ≤ 0.6 →
      foliageRadius i rNorm
        = TREE_WIDTH_BASE * (1 - (i : ℝ) / (FOLIAGE_COUNT : ℝ)) * rNorm) ∧
    (0.6 < rNorm →
      foliageRadius i rNorm
        = TREE_WIDTH_BASE * (1 - (i : ℝ) / (FOLIAGE_COUNT : ℝ)) * rNorm
            * (1 + Real.sin ((i : ℝ) / (FOLIAGE_COUNT : ℝ) * TREE_HEIGHT * 2.5) * 0.2) ∧
      TREE_WIDTH_BASE * (1 - (i : ℝ) / (FOLIAGE_COUNT : ℝ)) * rNorm * 0.8
          ≤ foliageRadius i rNorm ∧
      foliageRadius i rNorm
          ≤ TREE_WIDTH_BASE * (1 - (i : ℝ) / (FOLIAGE_COUNT : ℝ)) * rNorm * 1.2) := by
  have hicast : (i : ℝ) < (FOLIAGE_COUNT : ℝ) := by exact_mod_cast hi
  have hpos : (0 : ℝ) < (FOLIAGE_COUNT : ℝ) := by norm_num [FOLIAGE_COUNT]
  have ht1 : (i : ℝ) / (FOLIAGE_COUNT : ℝ) < 1 := by
    rw [div_lt_one hpos]
    exact hicast
  have h14 : (0 : ℝ) ≤ TREE_WIDTH_BASE := by norm_num [TREE_WIDTH_BASE]
  have hM : (0 : ℝ) ≤ TREE_WIDTH_BASE * (1 - (i : ℝ) / (FOLIAGE_COUNT : ℝ)) :=
    mul_nonneg h14 (by linarith)
  have hs1 := Real.neg_one_le_sin ((i : ℝ) / (FOLIAGE_COUNT : ℝ) * TREE_HEIGHT * 2.5)
  have hs2 := Real.sin_le_one ((i : ℝ) / (FOLIAGE_COUNT : ℝ) * TREE_HEIGHT * 2.5)
  refine ⟨foliageRadius_eq_of_le i rNorm, fun h => ⟨foliageRadius_eq_of_gt i rNorm h, ?_, ?_⟩⟩
  · have hMr : (0 : ℝ) ≤ TREE_WIDTH_BASE * (1 - (i : ℝ) / (FOLIAGE_COUNT : ℝ)) * rNorm :=
      mul_nonneg hM (by linarith)
    rw [foliageRadius_eq_of_gt i rNorm h]
    nlinarith [hMr, hs1]
  · have hMr : (0 : ℝ) ≤ TREE_WIDTH_BASE * (1 - (i : ℝ) / (FOLIAGE_COUNT : ℝ)) * rNorm :=
      mul_nonneg hM (by linarith)
    rw [foliageRadius_eq_of_gt i rNorm h]
    nlinarith [hMr, hs2]

/-- Witness for the amended C7 at iteration 0 with radial fraction 0.7. -/
theorem foliage_perturbation_bounded_witness :
    0 < FOLIAGE_COUNT ∧
    (((0.7 : ℝ) ≤ 0.6 →
      foliageRadius 0 0.7
        = TREE_WIDTH_BASE * (1 - ((0 : ℕ) : ℝ) / (FOLIAGE_COUNT : ℝ)) * 0.7) ∧
    ((0.6 : ℝ) < 0.7 →
      foliageRadius 0 0.7
        = TREE_WIDTH_BASE * (1 - ((0 : ℕ) : ℝ) / (FOLIAGE_COUNT : ℝ)) * 0.7
            * (1 + Real.sin (((0 : ℕ) : ℝ) / (FOLIAGE_COUNT : ℝ) * TREE_HEIGHT * 2.5) * 0.2) ∧
      TREE_WIDTH_BASE * (1 - ((0 : ℕ) : ℝ) / (FOLIAGE_COUNT : ℝ)) * 0.7 * 0.8
          ≤ foliageRadius 0 0.7 ∧
      foliageRadius 0 0.7
          ≤ TREE_WIDTH_BASE * (1 - ((0 : ℕ) : ℝ) / (FOLIAGE_COUNT : ℝ)) * 0.7 * 1.2)) :=
  ⟨by norm_num [FOLIAGE_COUNT],
   foliage_perturbation_bounded 0 0.7 (by norm_num [FOLIAGE_COUNT])⟩

end ChristmasTree

end
